import Mathlib

/-
Verification of the StockFlow take-home repository.

The repository has two Flask applications:
  * Part-1.py : a product-creation endpoint (POST /api/products) backed by
    Product and Inventory tables;
  * Part-3.py : a low-stock alert endpoint
    (GET /api/companies/<company_id>/alerts/low-stock) backed by Company,
    Warehouse, Product, Inventory, Supplier, ProductSupplier and
    InventoryMovement tables.

Both are modelled below as pure functions over explicit list-based database
states.  SQL joins become nested list products with an explicit filter, the
aggregate SUM becomes a list sum, timestamps become integers measured in
days, and Python's float division together with int() truncation is modelled
with exact rationals and truncation toward zero (`Int.tdiv`).
-/

namespace Part3

/-- Company model of Part-3.py (id, name). -/
structure Company where
  id : Nat
  name : String
deriving Repr, DecidableEq

/-- Warehouse model of Part-3.py (id, name, company_id). -/
structure Warehouse where
  id : Nat
  name : String
  company_id : Nat
deriving Repr, DecidableEq

/-- Product model of Part-3.py; product_type is a nullable string column,
hence `Option String`. -/
structure Product where
  id : Nat
  name : String
  sku : String
  product_type : Option String
deriving Repr, DecidableEq

/-- Inventory model of Part-3.py (id, product_id, warehouse_id, quantity). -/
structure Inventory where
  id : Nat
  product_id : Nat
  warehouse_id : Nat
  quantity : Int
deriving Repr, DecidableEq

/-- Supplier model of Part-3.py (id, name, contact_email). -/
structure Supplier where
  id : Nat
  name : String
  contact_email : String
deriving Repr, DecidableEq

/-- ProductSupplier association table of Part-3.py. -/
structure ProductSupplier where
  product_id : Nat
  supplier_id : Nat
deriving Repr, DecidableEq

/-- InventoryMovement model of Part-3.py; created_at is modelled as an
integer timestamp measured in days. -/
structure InventoryMovement where
  id : Nat
  product_id : Nat
  warehouse_id : Nat
  quantity_change : Int
  reason : String
  created_at : Int
deriving Repr, DecidableEq

/-- The database state read by the alert endpoint: one list per table. -/
structure DB where
  companies : List Company
  warehouses : List Warehouse
  products : List Product
  inventories : List Inventory
  suppliers : List Supplier
  product_suppliers : List ProductSupplier
  movements : List InventoryMovement
deriving Repr

/-- The "supplier" object embedded in each alert record (Part-3.py lines
161-165). -/
structure SupplierInfo where
  id : Nat
  name : String
  contact_email : String
deriving Repr, DecidableEq

/-- One alert record as appended in Part-3.py lines 152-166.  Note the
singular `supplier` field: the code stores one supplier object per alert,
not a list. -/
structure Alert where
  product_id : Nat
  product_name : String
  sku : String
  warehouse_id : Nat
  warehouse_name : String
  current_stock : Int
  threshold : Nat
  days_until_stockout : Int
  supplier : SupplierInfo
deriving Repr, DecidableEq

/-- The JSON response of the endpoint: jsonify defaults to HTTP status 200
(Part-3.py lines 169-172). -/
structure Response where
  status : Nat
  alerts : List Alert
  total_alerts : Nat
deriving Repr, DecidableEq

/-- The THRESHOLDS dict of Part-3.py lines 93-96. -/
def THRESHOLDS : List (String × Nat) := [("simple", 20), ("bundle", 10)]

/-- THRESHOLDS.get(product.product_type, 20) of Part-3.py line 120: Python
dict lookup with default 20; a NULL column (None key) also hits the
default. -/
def threshold_for (product_type : Option String) : Nat :=
  match product_type with
  | none => 20
  | some t => (THRESHOLDS.lookup t).getD 20

/-- datetime.utcnow() - timedelta(days=30) of Part-3.py line 100, with time
measured in days. -/
def thirty_days_ago (now : Int) : Int := now - 30

/-- The scalar subquery of Part-3.py lines 124-131:
abs(SUM(quantity_change)) over movements of the given product and warehouse
with reason "sale" in the trailing 30-day window.  SQL SUM over an empty
row set is NULL, so the scalar is `none` when no row matches, mirroring
Python's None. -/
def salesScalar (movements : List InventoryMovement) (now : Int)
    (pid wid : Nat) : Option Nat :=
  let rows := movements.filter fun (m : InventoryMovement) =>
    m.product_id == pid && m.warehouse_id == wid && m.reason == "sale" &&
      decide (thirty_days_ago now ≤ m.created_at)
  if rows.isEmpty then none
  else some ((rows.map fun (m : InventoryMovement) => m.quantity_change).sum.natAbs)

/-- The raw cartesian product underlying the join of Part-3.py lines
106-113, before any join condition is applied. -/
def joinRows (db : DB) :
    List (Inventory × Product × Warehouse × ProductSupplier × Supplier) :=
  db.inventories.flatMap fun inventory =>
    db.products.flatMap fun product =>
      db.warehouses.flatMap fun warehouse =>
        db.product_suppliers.flatMap fun ps =>
          db.suppliers.map fun supplier =>
            (inventory, product, warehouse, ps, supplier)

/-- The query of Part-3.py lines 106-113: inner joins
Inventory-Product-Warehouse-ProductSupplier-Supplier filtered to the
company's warehouses; the SELECT list keeps (Inventory, Product, Warehouse,
Supplier).  A product with k linked suppliers contributes k rows per
inventory record. -/
def queryResults (db : DB) (company_id : Nat) :
    List (Inventory × Product × Warehouse × Supplier) :=
  (joinRows db).filterMap fun row =>
    let (inventory, product, warehouse, ps, supplier) := row
    if inventory.product_id = product.id ∧
        inventory.warehouse_id = warehouse.id ∧
        ps.product_id = product.id ∧
        supplier.id = ps.supplier_id ∧
        warehouse.company_id = company_id
    then some (inventory, product, warehouse, supplier)
    else none

/-- sales / 30 of Part-3.py line 142, as an exact rational (the code uses
Python float division; the claims and spec read it as exact). -/
def avg_daily_sales (sales : Nat) : Rat := (sales : Rat) / 30

/-- Python's int() applied to a rational: truncation toward zero. -/
def pyInt (x : Rat) : Int := Int.tdiv x.num (x.den : Int)

/-- int(inventory.quantity / avg_daily_sales) of Part-3.py line 150. -/
def days_until_stockout (quantity : Int) (sales : Nat) : Int :=
  pyInt ((quantity : Rat) / avg_daily_sales sales)

/-- One iteration of the for-loop of Part-3.py lines 115-166, with the
loop's tuple already destructured as in the for statement: resolve the
threshold, compute the 30-day sales scalar, skip on no/zero sales, skip
when stock is above the threshold, otherwise build the alert record. -/
def processRow (db : DB) (now : Int) (inventory : Inventory)
    (product : Product) (warehouse : Warehouse) (supplier : Supplier) :
    Option Alert :=
  let threshold := threshold_for product.product_type
  match salesScalar db.movements now product.id warehouse.id with
  | none => none
  | some sales =>
    if sales = 0 then none
    else if inventory.quantity ≤ (threshold : Int) then
      some {
        product_id := product.id
        product_name := product.name
        sku := product.sku
        warehouse_id := warehouse.id
        warehouse_name := warehouse.name
        current_stock := inventory.quantity
        threshold := threshold
        days_until_stockout := days_until_stockout inventory.quantity sales
        supplier := {
          id := supplier.id
          name := supplier.name
          contact_email := supplier.contact_email } }
    else none

/-- The collected alerts list of Part-3.py lines 89-166. -/
def low_stock_alerts (db : DB) (company_id : Nat) (now : Int) : List Alert :=
  (queryResults db company_id).filterMap fun r =>
    processRow db now r.1 r.2.1 r.2.2.1 r.2.2.2

/-- The full endpoint response of Part-3.py lines 169-172. -/
def low_stock_response (db : DB) (company_id : Nat) (now : Int) : Response :=
  { status := 200
    alerts := low_stock_alerts db company_id now
    total_alerts := (low_stock_alerts db company_id now).length }

/-- A concrete database used to exercise the endpoint: product 1 has two
suppliers, recent sales of 60 units and stock 15 at warehouse 1; product 2
has a supplier but no movement at all (dormant); product 4 has recent sales
and low stock but no ProductSupplier row. -/
def exDB : DB :=
  { companies := [{ id := 1, name := "Acme" }]
    warehouses := [{ id := 1, name := "Main", company_id := 1 }]
    products := [
      { id := 1, name := "Widget", sku := "W-1", product_type := some "simple" },
      { id := 2, name := "Gadget", sku := "G-2", product_type := some "bundle" },
      { id := 4, name := "Gizmo", sku := "Z-4", product_type := none }]
    inventories := [
      { id := 1, product_id := 1, warehouse_id := 1, quantity := 15 },
      { id := 2, product_id := 2, warehouse_id := 1, quantity := 5 },
      { id := 3, product_id := 4, warehouse_id := 1, quantity := 2 }]
    suppliers := [
      { id := 1, name := "SupA", contact_email := "a@sup.com" },
      { id := 2, name := "SupB", contact_email := "b@sup.com" }]
    product_suppliers := [
      { product_id := 1, supplier_id := 1 },
      { product_id := 1, supplier_id := 2 },
      { product_id := 2, supplier_id := 1 }]
    movements := [
      { id := 1, product_id := 1, warehouse_id := 1, quantity_change := -60,
        reason := "sale", created_at := 90 },
      { id := 2, product_id := 4, warehouse_id := 1, quantity_change := -30,
        reason := "sale", created_at := 95 }] }

/-- The evaluation instant used with `exDB`: day 100, so the trailing
window starts at day 70. -/
def exNow : Int := 100

/-- The alert the endpoint emits for product 1 through its first supplier
when run on `exDB` at `exNow`. -/
def exAlert : Alert :=
  { product_id := 1
    product_name := "Widget"
    sku := "W-1"
    warehouse_id := 1
    warehouse_name := "Main"
    current_stock := 15
    threshold := 20
    days_until_stockout := days_until_stockout 15 60
    supplier := { id := 1, name := "SupA", contact_email := "a@sup.com" } }

end Part3

namespace Part1

/-- A JSON value as decoded by request.get_json() in Part-1.py; the claims
only exercise scalar values, so compound arrays/objects are not modelled
(like null and booleans they would fail the numeric coercions below). -/
inductive Json where
  | null
  | bool (b : Bool)
  | num (q : Rat)
  | str (s : String)
deriving Repr, DecidableEq

/-- Product model of Part-1.py lines 17-21.  The name and sku columns store
whatever JSON value the request carried (SQLAlchemy only coerces at flush);
price has been through Decimal() and is an exact rational. -/
structure Product where
  id : Nat
  name : Json
  sku : Json
  price : Rat
deriving Repr, DecidableEq

/-- Inventory model of Part-1.py lines 23-27; warehouse_id and quantity
hold the raw request values. -/
structure Inventory where
  id : Nat
  product_id : Nat
  warehouse_id : Json
  quantity : Json
deriving Repr, DecidableEq

/-- Storage state of the Part-1 application, with the autoincrement
counters made explicit (db.session.flush() assigns product.id). -/
structure DBState where
  products : List Product
  inventories : List Inventory
  next_product_id : Nat
  next_inventory_id : Nat
deriving Repr, DecidableEq

/-- required_fields of Part-1.py line 43. -/
def required_fields : List String := ["name", "sku", "price", "warehouse_id"]

/-- The validation loop of Part-1.py lines 44-46: the first required field
not present as a key of the request body, if any.  Only key presence is
inspected, never the value. -/
def firstMissing (data : List (String × Json)) : Option String :=
  required_fields.find? fun f => (data.lookup f).isNone

/-- data[k] after presence has been established (Python raises KeyError
otherwise; validated callers never hit the default). -/
def jget (data : List (String × Json)) (k : String) : Json :=
  (data.lookup k).getD Json.null

/-- Value of a non-empty all-digit character run, `none` otherwise. -/
def digitsVal? (cs : List Char) : Option Nat :=
  if cs.all Char.isDigit then
    some (cs.foldl (fun n c => 10 * n + (c.toNat - 48)) 0)
  else none

/-- Decimal(string) of the Python decimal module, restricted to the plain
sign/digits/point syntax: optional sign, an integer part and an optional
fractional part, at least one of which is non-empty.  `none` models the
constructor raising InvalidOperation. -/
def decimalOfString (s : String) : Option Rat :=
  let cs := s.toList
  let body := match cs with
    | '-' :: rest => rest
    | '+' :: rest => rest
    | rest => rest
  let neg : Bool := match cs with
    | '-' :: _ => true
    | _ => false
  let intPart := body.takeWhile fun c => c != '.'
  let rest := body.dropWhile fun c => c != '.'
  match rest with
  | [] =>
    if intPart.isEmpty then none
    else (digitsVal? intPart).map fun n =>
      if neg then -(n : Rat) else (n : Rat)
  | _ :: fracPart =>
    if intPart.isEmpty && fracPart.isEmpty then none
    else
      match digitsVal? intPart, digitsVal? fracPart with
      | some i, some f =>
        let mag : Rat := (i : Rat) + (f : Rat) / ((10 : Rat) ^ fracPart.length)
        some (if neg then -mag else mag)
      | _, _ => none

/-- Decimal(str(v)) of Part-1.py line 57: str() renders the decoded JSON
value, then Decimal parses it.  A JSON number round-trips to its own value;
None, booleans and non-numeric strings make the constructor raise. -/
def decimalOfJson : Json → Option Rat
  | Json.num q => some q
  | Json.str s => decimalOfString s
  | _ => none

/-- POST /api/products of Part-1.py lines 38-80 as a state transformer:
returns the HTTP status together with the state after the request.
400 = missing required field (line 46), 409 = duplicate SKU (line 50),
500 = exception inside the try block with rollback (lines 78-80, the
modelled failure point being the Decimal() coercion of line 57), 201 =
committed product plus its inventory row (lines 52-76). -/
def create_product (st : DBState) (data : List (String × Json)) :
    Nat × DBState :=
  match firstMissing data with
  | some _ => (400, st)
  | none =>
    if st.products.any fun p => p.sku == jget data "sku" then (409, st)
    else
      match decimalOfJson (jget data "price") with
      | none => (500, st)
      | some price =>
        let product : Product :=
          { id := st.next_product_id
            name := jget data "name"
            sku := jget data "sku"
            price := price }
        let inventory : Inventory :=
          { id := st.next_inventory_id
            product_id := product.id
            warehouse_id := jget data "warehouse_id"
            quantity := (data.lookup "initial_quantity").getD (Json.num 0) }
        (201, { st with
                products := st.products ++ [product]
                inventories := st.inventories ++ [inventory]
                next_product_id := st.next_product_id + 1
                next_inventory_id := st.next_inventory_id + 1 })

/-- A concrete starting state holding one product with SKU "W-1" and its
inventory row. -/
def exState : DBState :=
  { products := [
      { id := 1, name := Json.str "Widget", sku := Json.str "W-1",
        price := 10 }]
    inventories := [
      { id := 1, product_id := 1, warehouse_id := Json.num 7,
        quantity := Json.num 3 }]
    next_product_id := 2
    next_inventory_id := 2 }

/-- A well-formed creation request without initial_quantity. -/
def exRequest : List (String × Json) :=
  [("name", Json.str "Doohickey"), ("sku", Json.str "D-9"),
   ("price", Json.num 4), ("warehouse_id", Json.num 7)]

/-- A creation request whose sku duplicates the stored "W-1". -/
def exDupRequest : List (String × Json) :=
  [("name", Json.str "Clone"), ("sku", Json.str "W-1"),
   ("price", Json.num 5), ("warehouse_id", Json.num 7)]

/-- A creation request with all keys present but a null price value. -/
def exNullPriceRequest : List (String × Json) :=
  [("name", Json.null), ("sku", Json.str "N-1"),
   ("price", Json.null), ("warehouse_id", Json.null)]

end Part1

namespace Part3

/-- A filterMap produces exactly one output element per input on which the
function fires. -/
theorem length_filterMap_eq_countP {α β : Type} (f : α → Option β)
    (l : List α) :
    (l.filterMap f).length = l.countP fun a => (f a).isSome := by
  induction l with
  | nil => rfl
  | cons x xs ih =>
    rw [List.filterMap_cons, List.countP_cons]
    cases hfx : f x with
    | none => simp [hfx, ih]
    | some b => simp [hfx, ih]

/-- Every component of a raw join row comes from the corresponding table. -/
theorem mem_joinRows {db : DB}
    {row : Inventory × Product × Warehouse × ProductSupplier × Supplier}
    (h : row ∈ joinRows db) :
    row.1 ∈ db.inventories ∧ row.2.1 ∈ db.products ∧
      row.2.2.1 ∈ db.warehouses ∧ row.2.2.2.1 ∈ db.product_suppliers ∧
      row.2.2.2.2 ∈ db.suppliers := by
  simp only [joinRows, List.mem_flatMap, List.mem_map] at h
  obtain ⟨inv, hinv, prod, hprod, wh, hwh, ps, hps, sup, hsup, heq⟩ := h
  subst heq
  exact ⟨hinv, hprod, hwh, hps, hsup⟩

/-- Characterization of membership in the join result: the components come
from their tables and satisfy all join conditions of Part-3.py lines
106-113. -/
theorem mem_queryResults {db : DB} {company_id : Nat}
    {r : Inventory × Product × Warehouse × Supplier}
    (h : r ∈ queryResults db company_id) :
    r.1 ∈ db.inventories ∧ r.2.1 ∈ db.products ∧
      r.2.2.1 ∈ db.warehouses ∧ r.2.2.2 ∈ db.suppliers ∧
      r.1.product_id = r.2.1.id ∧ r.1.warehouse_id = r.2.2.1.id ∧
      (∃ ps ∈ db.product_suppliers,
        ps.product_id = r.2.1.id ∧ r.2.2.2.id = ps.supplier_id) ∧
      r.2.2.1.company_id = company_id := by
  simp only [queryResults, List.mem_filterMap] at h
  obtain ⟨row, hrow, hsome⟩ := h
  obtain ⟨inv, prod, wh, ps, sup⟩ := row
  have hmem := mem_joinRows hrow
  by_cases hc : inv.product_id = prod.id ∧ inv.warehouse_id = wh.id ∧
      ps.product_id = prod.id ∧ sup.id = ps.supplier_id ∧
      wh.company_id = company_id
  · rw [if_pos hc] at hsome
    cases hsome
    exact ⟨hmem.1, hmem.2.1, hmem.2.2.1, hmem.2.2.2.2, hc.1, hc.2.1,
      ⟨ps, hmem.2.2.2.1, hc.2.2.1, hc.2.2.2.1⟩, hc.2.2.2.2⟩
  · rw [if_neg hc] at hsome
    exact absurd hsome (by simp)

/-- Characterization of a loop iteration that emits an alert: the sales
scalar is present and nonzero, the stock is at or below the resolved
threshold, and the alert record is built from the row exactly as in
Part-3.py lines 152-166. -/
theorem processRow_eq_some {db : DB} {now : Int}
    {inventory : Inventory} {product : Product} {warehouse : Warehouse}
    {supplier : Supplier} {a : Alert}
    (h : processRow db now inventory product warehouse supplier = some a) :
    ∃ sales : Nat,
      salesScalar db.movements now product.id warehouse.id = some sales ∧
      sales ≠ 0 ∧
      inventory.quantity ≤ (threshold_for product.product_type : Int) ∧
      a = { product_id := product.id
            product_name := product.name
            sku := product.sku
            warehouse_id := warehouse.id
            warehouse_name := warehouse.name
            current_stock := inventory.quantity
            threshold := threshold_for product.product_type
            days_until_stockout := days_until_stockout inventory.quantity sales
            supplier := { id := supplier.id, name := supplier.name,
                          contact_email := supplier.contact_email } } := by
  simp only [processRow] at h
  split at h
  · exact absurd h (by simp)
  · rename_i sales hs
    split at h
    · exact absurd h (by simp)
    · rename_i h0
      split at h
      · rename_i hq
        cases h
        exact ⟨sales, hs, h0, hq, rfl⟩
      · exact absurd h (by simp)

/-- Python's int() agrees with the mathematical floor on nonnegative
rationals. -/
theorem pyInt_eq_floor {x : Rat} (hx : 0 ≤ x) : pyInt x = ⌊x⌋ := by
  have hnum : 0 ≤ x.num := Rat.num_nonneg.mpr hx
  have hden : (0 : Int) ≤ (x.den : Int) := Int.natCast_nonneg _
  rw [pyInt, Int.tdiv_eq_ediv hnum hden, Rat.floor_def]

/-- When no warehouse belongs to the requested company, the join is
empty. -/
theorem queryResults_eq_nil {db : DB} {company_id : Nat}
    (h : ∀ w ∈ db.warehouses, w.company_id ≠ company_id) :
    queryResults db company_id = [] := by
  rw [queryResults, List.filterMap_eq_nil_iff]
  intro row hrow
  obtain ⟨inv, prod, wh, ps, sup⟩ := row
  have hw : wh ∈ db.warehouses := (mem_joinRows hrow).2.2.1
  have hc : ¬(inv.product_id = prod.id ∧ inv.warehouse_id = wh.id ∧
      ps.product_id = prod.id ∧ sup.id = ps.supplier_id ∧
      wh.company_id = company_id) := by
    intro hc
    exact h wh hw hc.2.2.2.2
  simp only [if_neg hc]

/-- The alert for product 1 through supplier 1 is among the alerts computed
on the example database. -/
theorem exAlert_mem : exAlert ∈ low_stock_alerts exDB 1 exNow := by
  rw [low_stock_alerts]
  refine List.mem_filterMap.mpr
    ⟨(({ id := 1, product_id := 1, warehouse_id := 1, quantity := 15 } : Inventory),
      ({ id := 1, name := "Widget", sku := "W-1", product_type := some "simple" } : Product),
      ({ id := 1, name := "Main", company_id := 1 } : Warehouse),
      ({ id := 1, name := "SupA", contact_email := "a@sup.com" } : Supplier)),
      by decide, rfl⟩

end Part3

namespace Part1

/-- When every required field is a key of the request body, the validation
loop of Part-1.py lines 44-46 finds nothing missing. -/
theorem firstMissing_eq_none {data : List (String × Json)}
    (h : ∀ f ∈ required_fields, (data.lookup f).isSome) :
    firstMissing data = none := by
  rw [firstMissing, List.find?_eq_none]
  intro f hf hnone
  have h1 := h f hf
  rw [Option.isNone_iff_eq_none] at hnone
  rw [hnone] at h1
  exact absurd h1 (by simp)

end Part1

/-- C1, counterexample: on the example database, product 1 at warehouse 1
qualifies for an alert and is linked to two suppliers, and the endpoint
emits two separate alert records for that (product, warehouse) pair -- not
the single alert the claim requires. -/
theorem C1_counterexample :
    ¬(((Part3.low_stock_alerts Part3.exDB 1 Part3.exNow).filter fun a =>
        a.product_id == 1 && a.warehouse_id == 1).length = 1) ∧
    ((Part3.low_stock_alerts Part3.exDB 1 Part3.exNow).filter fun a =>
        a.product_id == 1 && a.warehouse_id == 1).length = 2 := by
  constructor
  · decide
  · decide

/-- C1, amended: the endpoint emits exactly one alert per qualifying row of
the supplier-expanded join -- that is, one alert per (product, warehouse,
linked supplier) combination, each carrying a single supplier object --
so a product linked to two suppliers yields two alerts for the same
(product, warehouse) pair, one per supplier. -/
theorem C1_amended_thm :
    (∀ (db : Part3.DB) (cid : Nat) (now : Int),
      (Part3.low_stock_alerts db cid now).length =
        (Part3.queryResults db cid).countP fun r =>
          (Part3.processRow db now r.1 r.2.1 r.2.2.1 r.2.2.2).isSome) ∧
    ((Part3.low_stock_alerts Part3.exDB 1 Part3.exNow).map fun a =>
        (a.product_id, a.warehouse_id, a.supplier.id)) =
      [(1, 1, 1), (1, 1, 2)] :=
  ⟨fun _ _ _ => Part3.length_filterMap_eq_countP _ _, by decide⟩

/-- C2: every emitted alert with nonnegative current_stock has
days_until_stockout equal to the floor of current_stock divided by the
average daily sales rate sales_total/30, the sales total being positive;
in particular stock 15 with sales 60 gives 7, and stock 0 gives 0 for
every positive sales total. -/
theorem C2_thm :
    (∀ (db : Part3.DB) (cid : Nat) (now : Int) (a : Part3.Alert),
      a ∈ Part3.low_stock_alerts db cid now → 0 ≤ a.current_stock →
      ∃ sales : Nat, 0 < sales ∧
        Part3.salesScalar db.movements now a.product_id a.warehouse_id =
          some sales ∧
        a.days_until_stockout =
          ⌊(a.current_stock : Rat) / Part3.avg_daily_sales sales⌋) ∧
    Part3.days_until_stockout 15 60 = 7 ∧
    (∀ sales : Nat, 0 < sales → Part3.days_until_stockout 0 sales = 0) := by
  refine ⟨?_, ?_, ?_⟩
  · intro db cid now a ha h0
    rw [Part3.low_stock_alerts] at ha
    obtain ⟨r, _, hp⟩ := List.mem_filterMap.mp ha
    obtain ⟨inv, prod, wh, sup⟩ := r
    obtain ⟨sales, hs, hne, _, hae⟩ := Part3.processRow_eq_some hp
    subst hae
    dsimp only at h0 ⊢
    refine ⟨sales, Nat.pos_of_ne_zero hne, hs, ?_⟩
    rw [Part3.days_until_stockout]
    apply Part3.pyInt_eq_floor
    apply div_nonneg
    · exact_mod_cast h0
    · rw [Part3.avg_daily_sales]
      positivity
  · simp only [Part3.days_until_stockout, Part3.pyInt, Part3.avg_daily_sales]
    norm_num
    decide
  · intro sales _
    simp only [Part3.days_until_stockout, Part3.pyInt, Part3.avg_daily_sales]
    norm_num

/-- C2, witness: the alert for product 1 on the example database has
days_until_stockout 7 = floor(15 / (60/30)). -/
theorem C2_witness :
    ∃ sales : Nat, 0 < sales ∧
      Part3.salesScalar Part3.exDB.movements Part3.exNow
        Part3.exAlert.product_id Part3.exAlert.warehouse_id = some sales ∧
      Part3.exAlert.days_until_stockout =
        ⌊(Part3.exAlert.current_stock : Rat) / Part3.avg_daily_sales sales⌋ :=
  C2_thm.1 Part3.exDB 1 Part3.exNow Part3.exAlert Part3.exAlert_mem (by decide)

/-- C3: a (product, warehouse) pair whose trailing-window sales scalar is
NULL (no matching movements) or zero never appears among the emitted
alerts, regardless of stock or threshold. -/
theorem C3_thm :
    ∀ (db : Part3.DB) (cid p w : Nat) (now : Int),
    Part3.salesScalar db.movements now p w = none ∨
      Part3.salesScalar db.movements now p w = some 0 →
    ∀ a ∈ Part3.low_stock_alerts db cid now,
      ¬(a.product_id = p ∧ a.warehouse_id = w) := by
  rintro db cid p w now hz a ha ⟨hap, haw⟩
  rw [Part3.low_stock_alerts] at ha
  obtain ⟨r, _, hp⟩ := List.mem_filterMap.mp ha
  obtain ⟨inv, prod, wh, sup⟩ := r
  obtain ⟨sales, hs, hne, _, hae⟩ := Part3.processRow_eq_some hp
  subst hae
  dsimp only at hap haw
  rw [hap, haw] at hs
  cases hz with
  | inl h => rw [h] at hs; exact Option.noConfusion hs
  | inr h =>
    rw [h] at hs
    injection hs with h2
    exact hne h2.symm

/-- C3, witness: product 2 has stock 5 at warehouse 1 but no movement rows,
so no alert carries its (product, warehouse) pair; checked on the alert the
example database does emit. -/
theorem C3_witness :
    ¬(Part3.exAlert.product_id = 2 ∧ Part3.exAlert.warehouse_id = 1) :=
  C3_thm Part3.exDB 1 2 1 Part3.exNow (Or.inl (by decide))
    Part3.exAlert Part3.exAlert_mem

/-- C4: the threshold lookup maps "simple" to 20 and "bundle" to 10, and
every other product type -- absent included -- to the default 20. -/
theorem C4_thm :
    (∀ pt : Option String, pt ≠ some "simple" → pt ≠ some "bundle" →
      Part3.threshold_for pt = 20) ∧
    Part3.threshold_for (some "simple") = 20 ∧
    Part3.threshold_for (some "bundle") = 10 := by
  refine ⟨?_, rfl, rfl⟩
  intro pt h1 h2
  match pt with
  | none => rfl
  | some t =>
    have ht1 : t ≠ "simple" := fun h => h1 (by rw [h])
    have ht2 : t ≠ "bundle" := fun h => h2 (by rw [h])
    have hb1 : (t == "simple") = false := beq_eq_false_iff_ne.mpr ht1
    have hb2 : (t == "bundle") = false := beq_eq_false_iff_ne.mpr ht2
    simp [Part3.threshold_for, Part3.THRESHOLDS, List.lookup, hb1, hb2]

/-- C4, witness: the unknown type "digital" resolves to the default 20. -/
theorem C4_witness : Part3.threshold_for (some "digital") = 20 :=
  C4_thm.1 (some "digital") (by decide) (by decide)

/-- C5: a row whose stock strictly exceeds the resolved threshold emits no
alert, and consequently every emitted alert has current_stock at or below
its recorded threshold (equality included). -/
theorem C5_thm :
    (∀ (db : Part3.DB) (now : Int) (inventory : Part3.Inventory)
        (product : Part3.Product) (warehouse : Part3.Warehouse)
        (supplier : Part3.Supplier),
      (Part3.threshold_for product.product_type : Int) < inventory.quantity →
      Part3.processRow db now inventory product warehouse supplier = none) ∧
    (∀ (db : Part3.DB) (cid : Nat) (now : Int) (a : Part3.Alert),
      a ∈ Part3.low_stock_alerts db cid now →
      a.current_stock ≤ (a.threshold : Int)) := by
  constructor
  · intro db now inv prod wh sup hgt
    simp only [Part3.processRow]
    cases hs : Part3.salesScalar db.movements now prod.id wh.id with
    | none => rfl
    | some sales =>
      by_cases h0 : sales = 0
      · simp [h0]
      · simp [h0, not_le.mpr hgt]
  · intro db cid now a ha
    rw [Part3.low_stock_alerts] at ha
    obtain ⟨r, _, hp⟩ := List.mem_filterMap.mp ha
    obtain ⟨inv, prod, wh, sup⟩ := r
    obtain ⟨sales, _, _, hq, hae⟩ := Part3.processRow_eq_some hp
    subst hae
    exact hq

/-- C5, witness: stock 40 against threshold 20 emits nothing, and the alert
actually emitted on the example database carries stock 15 ≤ threshold
20. -/
theorem C5_witness :
    Part3.processRow Part3.exDB Part3.exNow
        { id := 9, product_id := 1, warehouse_id := 1, quantity := 40 }
        { id := 1, name := "Widget", sku := "W-1",
          product_type := some "simple" }
        { id := 1, name := "Main", company_id := 1 }
        { id := 1, name := "SupA", contact_email := "a@sup.com" } = none ∧
    Part3.exAlert.current_stock ≤ (Part3.exAlert.threshold : Int) :=
  ⟨C5_thm.1 Part3.exDB Part3.exNow _ _ _ _ (by decide),
   C5_thm.2 Part3.exDB 1 Part3.exNow Part3.exAlert Part3.exAlert_mem⟩

/-- C6: a company_id owning no warehouse gets HTTP 200 with an empty alerts
array and total_alerts 0, not an error. -/
theorem C6_thm :
    ∀ (db : Part3.DB) (cid : Nat) (now : Int),
    (∀ w ∈ db.warehouses, w.company_id ≠ cid) →
    Part3.low_stock_response db cid now =
      { status := 200, alerts := [], total_alerts := 0 } := by
  intro db cid now h
  have hq : Part3.queryResults db cid = [] := Part3.queryResults_eq_nil h
  rw [Part3.low_stock_response, Part3.low_stock_alerts, hq]
  rfl

/-- C6, witness: company 99 matches no warehouse of the example database
and receives the empty 200 response. -/
theorem C6_witness :
    Part3.low_stock_response Part3.exDB 99 Part3.exNow =
      { status := 200, alerts := [], total_alerts := 0 } :=
  C6_thm Part3.exDB 99 Part3.exNow (by decide)

/-- C9: a product with no ProductSupplier association is silently dropped
by the inner join and never appears in the alerts output, whatever its
stock and sales. -/
theorem C9_thm :
    ∀ (db : Part3.DB) (cid p : Nat) (now : Int),
    (∀ ps ∈ db.product_suppliers, ps.product_id ≠ p) →
    ∀ a ∈ Part3.low_stock_alerts db cid now, a.product_id ≠ p := by
  intro db cid p now h a ha hap
  rw [Part3.low_stock_alerts] at ha
  obtain ⟨r, hr, hp⟩ := List.mem_filterMap.mp ha
  obtain ⟨inv, prod, wh, sup⟩ := r
  have hchar := Part3.mem_queryResults hr
  obtain ⟨ps, hps, hpsid, _⟩ := hchar.2.2.2.2.2.2.1
  obtain ⟨sales, _, _, _, hae⟩ := Part3.processRow_eq_some hp
  subst hae
  dsimp only at hap
  exact h ps hps (hpsid.trans hap)

/-- C9, witness: product 4 has recent sales and stock 2 below its default
threshold but no supplier link, and indeed the emitted alert is not for
product 4. -/
theorem C9_witness : Part3.exAlert.product_id ≠ 4 :=
  C9_thm Part3.exDB 1 4 Part3.exNow (by decide) Part3.exAlert Part3.exAlert_mem

/-- C7: a creation request that passes field validation but repeats a
stored SKU gets status 409 and the state is returned untouched: no product
row and no inventory row is added. -/
theorem C7_thm :
    ∀ (st : Part1.DBState) (data : List (String × Part1.Json)),
    (∀ f ∈ Part1.required_fields, (data.lookup f).isSome) →
    (∃ p ∈ st.products, p.sku = Part1.jget data "sku") →
    Part1.create_product st data = (409, st) := by
  intro st data hpresent hdup
  have hm := Part1.firstMissing_eq_none hpresent
  have hany : (st.products.any fun p => p.sku == Part1.jget data "sku")
      = true := by
    rw [List.any_eq_true]
    obtain ⟨p, hp, hsku⟩ := hdup
    exact ⟨p, hp, by simp [hsku]⟩
  simp only [Part1.create_product, hm, hany, if_true]

/-- C7, witness: re-posting SKU "W-1" against the example state yields 409
and the unchanged state. -/
theorem C7_witness :
    Part1.create_product Part1.exState Part1.exDupRequest =
      (409, Part1.exState) :=
  C7_thm Part1.exState Part1.exDupRequest (by decide)
    ⟨{ id := 1, name := Part1.Json.str "Widget", sku := Part1.Json.str "W-1",
       price := 10 }, by simp [Part1.exState], rfl⟩

/-- C8: a successful creation (201) from a request with all required fields
and no initial_quantity leaves exactly one inventory row for the new
product id, and its quantity is the JSON number 0. -/
theorem C8_thm :
    ∀ (st : Part1.DBState) (data : List (String × Part1.Json)),
    (∀ r ∈ st.inventories, r.product_id ≠ st.next_product_id) →
    data.lookup "initial_quantity" = none →
    (Part1.create_product st data).1 = 201 →
    ((Part1.create_product st data).2.inventories.filter fun r =>
        r.product_id == st.next_product_id) =
      [{ id := st.next_inventory_id
         product_id := st.next_product_id
         warehouse_id := Part1.jget data "warehouse_id"
         quantity := Part1.Json.num 0 }] := by
  intro st data hfresh hnoinit h201
  cases hm : Part1.firstMissing data with
  | some f => simp [Part1.create_product, hm] at h201
  | none =>
    cases hany : (st.products.any fun p => p.sku == Part1.jget data "sku") with
    | true => simp [Part1.create_product, hm, hany] at h201
    | false =>
      cases hdec : Part1.decimalOfJson (Part1.jget data "price") with
      | none => simp [Part1.create_product, hm, hany, hdec] at h201
      | some price =>
        simp only [Part1.create_product, hm, hany, hdec]
        rw [if_neg (by simp : ¬(false = true))]
        dsimp only
        rw [List.filter_append]
        have h1 : (st.inventories.filter fun r =>
            r.product_id == st.next_product_id) = [] := by
          rw [List.filter_eq_nil_iff]
          intro r hr
          simp only [beq_iff_eq]
          exact hfresh r hr
        rw [h1]
        simp [hnoinit]

/-- C8, witness: posting the well-formed request without initial_quantity
against the example state leaves exactly one inventory row for the new
product, with quantity 0. -/
theorem C8_witness :
    ((Part1.create_product Part1.exState Part1.exRequest).2.inventories.filter
        fun r => r.product_id == Part1.exState.next_product_id) =
      [{ id := Part1.exState.next_inventory_id
         product_id := Part1.exState.next_product_id
         warehouse_id := Part1.jget Part1.exRequest "warehouse_id"
         quantity := Part1.Json.num 0 }] :=
  C8_thm Part1.exState Part1.exRequest (by decide) (by decide) (by decide)

/-- C10: validation looks only at key presence, so a body holding all four
required keys never gets 400, whatever the values; the outcome is one of
201, 409 and 500. -/
theorem C10_thm :
    ∀ (st : Part1.DBState) (data : List (String × Part1.Json)),
    (∀ f ∈ Part1.required_fields, (data.lookup f).isSome) →
    (Part1.create_product st data).1 ≠ 400 ∧
      ((Part1.create_product st data).1 = 201 ∨
       (Part1.create_product st data).1 = 409 ∨
       (Part1.create_product st data).1 = 500) := by
  intro st data hpresent
  have hm := Part1.firstMissing_eq_none hpresent
  cases hany : (st.products.any fun p => p.sku == Part1.jget data "sku") with
  | true => simp [Part1.create_product, hm, hany]
  | false =>
    cases hdec : Part1.decimalOfJson (Part1.jget data "price") with
    | none => simp [Part1.create_product, hm, hany, hdec]
    | some price => simp [Part1.create_product, hm, hany, hdec]

/-- C10, witness: a body with all four keys but a null price passes
validation (no 400) and fails later in the 201/409/500 range. -/
theorem C10_witness :
    (Part1.create_product Part1.exState Part1.exNullPriceRequest).1 ≠ 400 ∧
      ((Part1.create_product Part1.exState Part1.exNullPriceRequest).1 = 201 ∨
       (Part1.create_product Part1.exState Part1.exNullPriceRequest).1 = 409 ∨
       (Part1.create_product Part1.exState Part1.exNullPriceRequest).1 = 500) :=
  C10_thm Part1.exState Part1.exNullPriceRequest (by decide)
